import Mathlib

/-! Shallow embedding of the MachinoxPro backend sources:
  - src/lib/sendFormEmail.js     (form-email validation, sanitisation, rendering, delivery)
  - src/app/api/upload-url/route.js  (upload-by-URL handler)

JavaScript strings are modelled as Lean String, absent values (null/undefined)
as Option String, thrown exceptions as Except String, and the outbound
HTTP traffic of one invocation as an explicit list of outbound calls.
-/

/-- The character class matched by the JavaScript regex escape class backslash-s
(whitespace), by code point. -/
def jsSpace (c : Char) : Bool :=
  let n := c.toNat
  (9 ≤ n && n ≤ 13) || n = 32 || n = 160 || n = 5760 ||
  (8192 ≤ n && n ≤ 8202) || n = 8232 || n = 8233 || n = 8239 || n = 8287 ||
  n = 12288 || n = 65279

/-- JS truthiness for an optional string: null/undefined and the empty string
are falsy. -/
def falsyStr : Option String → Bool
  | none => true
  | some s => s = ""

/-- The JS idiom `x || d` for an optional string `x` and default `d`. -/
def jsOr (o : Option String) (d : String) : String :=
  match o with
  | none => d
  | some s => if s = "" then d else s

/-- The apostrophe character (code point 39). -/
def apos : Char := Char.ofNat 39

/-- Per-character action of the sendFormEmail.js replacement map
`& < > " '` (lines 6-12); every other character passes through unchanged. -/
def escapeChar (c : Char) : String :=
  if c = '&' then ("&amp;")
  else if c = '<' then ("&lt;")
  else if c = '>' then ("&gt;")
  else if c = '"' then ("&quot;")
  else if c = apos then ("&#039;")
  else String.singleton c

/-- Character-list form of the global regex replace on lines 13. -/
def escData (l : List Char) : List Char :=
  l.flatMap (fun c => (escapeChar c).data)

/-- Function `escapeHtml` of sendFormEmail.js lines 4-14: a falsy input (null,
undefined, empty string) yields the empty string, otherwise each of the five
reserved characters is replaced by its entity. -/
def escapeHtml (text : Option String) : String :=
  match text with
  | none => ""
  | some s => if s = "" then ("") else String.mk (escData s.data)

/-- Predicate used to cut the input at the first `@`. -/
def notAt (c : Char) : Bool := c != '@'

/-- Function `isValidEmail` of sendFormEmail.js lines 19-22, the test of the regex
`^[^\s@]+@[^\s@]+\.[^\s@]+$`, on the character list: a non-empty run of
non-space non-at characters, an `@`, and a domain of non-space non-at
characters containing a dot with at least one character on each side. -/
def isValidEmailChars (l : List Char) : Bool :=
  match l.dropWhile notAt with
  | [] => false
  | _ :: dom =>
      (!(l.takeWhile notAt).isEmpty) && (l.takeWhile notAt).all (fun c => !jsSpace c) &&
      (!dom.isEmpty) && dom.all (fun c => notAt c && !jsSpace c) &&
      ((dom.drop 1).dropLast).contains '.'

/-- String-level wrapper of the matcher. -/
def isValidEmail (s : String) : Bool := isValidEmailChars s.data

/-- Function `isValidEmail` applied to a possibly-absent value; `regex.test(undefined)`
coerces to the string "undefined", which cannot match (it has no `@`). -/
def isValidEmailOpt : Option String → Bool
  | none => false
  | some s => isValidEmail s

/-- The test `!formData[field] || String(formData[field]).trim() === ''` of
sendFormEmail.js line 31: the field is absent, empty, or all whitespace. -/
def isBlankOpt : Option String → Bool
  | none => true
  | some s => s = "" || s.data.all jsSpace

/-- The submitted form data (`formData`): the five required fields and the
three optional ones, each possibly absent. -/
structure FormData where
  firstName : Option String
  lastName : Option String
  email : Option String
  phone : Option String
  message : Option String
  company : Option String
  jobTitle : Option String
  country : Option String

/-- Function `validateFormData` of sendFormEmail.js lines 27-43: required-field loop in
source order, then the email-format check, then the form-type check; the first
failure throws. -/
def validateFormData (fd : FormData) (formType : String) : Except String Unit :=
  if isBlankOpt fd.firstName then .error ("Missing required field: firstName")
  else if isBlankOpt fd.lastName then .error ("Missing required field: lastName")
  else if isBlankOpt fd.email then .error ("Missing required field: email")
  else if isBlankOpt fd.phone then .error ("Missing required field: phone")
  else if isBlankOpt fd.message then .error ("Missing required field: message")
  else if !isValidEmailOpt fd.email then .error ("Invalid email address")
  else if !(formType = "contact" || formType = "trial") then
    .error ("Invalid form type. Must be \"contact\" or \"trial\"")
  else .ok ()

/-- The JS method `String.prototype.trim`: strip whitespace from both ends. -/
def jsTrim (s : String) : String :=
  String.mk (((s.data.dropWhile jsSpace).reverse.dropWhile jsSpace).reverse)

/-- The JS method `String.prototype.split` with a single-character separator, on
character lists (structural, so that concrete values compute). -/
def jsSplitChar (sep : Char) : List Char → List (List Char)
  | [] => [[]]
  | c :: rest =>
      match jsSplitChar sep rest with
      | [] => [[c]]
      | h :: t => if c = sep then [] :: h :: t else (c :: h) :: t

/-- The CC_EMAILS parsing of sendFormEmail.js lines 88-91: split the optional
environment value on commas, trim each entry, keep the non-empty syntactically
valid addresses; an unset variable yields the empty list. -/
def parseCcEmails (v : Option String) : List String :=
  match v with
  | none => []
  | some s =>
      ((jsSplitChar ',' s.data).map (fun l => jsTrim (String.mk l))).filter
        (fun e => e ≠ "" && isValidEmail e)

/-- Outcome of one `fetch` as seen by `getLogoBase64`: either the promise
chain threw (network error, body error), or an HTTP response arrived with a
status, an optional content-type header, and a body (already base64-encoded,
abstracting `Buffer.from(buffer).toString('base64')`). -/
inductive FetchOutcome where
  | thrown (msg : String)
  | response (status : Nat) (contentType : Option String) (bodyBase64 : String)

/-- Property `Response.ok` of the Fetch API: status in the range 200-299. -/
def statusOk (st : Nat) : Bool := 200 ≤ st && st ≤ 299

/-- Function `getLogoBase64` of sendFormEmail.js lines 49-66: on a 2xx response it
returns a data URI built from the content-type header (defaulting to
image/png) and the base64 body; any throw, including the one raised on a
non-ok status, is caught and turned into null. -/
def getLogoBase64 (outcome : FetchOutcome) : Option String :=
  match outcome with
  | .thrown _ => none
  | .response st ct b64 =>
      if statusOk st then
        some ("data:" ++ jsOr ct ("image/png") ++ ";base64," ++ b64)
      else none

/-- The sanitised field set `safeData` of sendFormEmail.js lines 112-121:
every user-supplied value goes through `escapeHtml`; the optional fields are
defaulted to "N/A" first. -/
structure SafeData where
  firstName : String
  lastName : String
  email : String
  phone : String
  company : String
  jobTitle : String
  country : String
  message : String

/-- Builds `safeData` from the raw form data (sendFormEmail.js lines 112-121). -/
def safeData (fd : FormData) : SafeData :=
  { firstName := escapeHtml fd.firstName
    lastName := escapeHtml fd.lastName
    email := escapeHtml fd.email
    phone := escapeHtml fd.phone
    company := escapeHtml (some (jsOr fd.company ("N/A")))
    jobTitle := escapeHtml (some (jsOr fd.jobTitle ("N/A")))
    country := escapeHtml (some (jsOr fd.country ("N/A")))
    message := escapeHtml fd.message }

/-- One piece of an interpolated template literal: either literal template
text, or a dynamic value spliced in by the interpolation. -/
inductive Seg where
  | lit (s : String)
  | dyn (s : String)

/-- The text a segment contributes to the rendered document. -/
def Seg.content : Seg → String
  | .lit s => s
  | .dyn s => s

/-- The rendered document of a segment list, as a character list. -/
def renderSegs (segs : List Seg) : List Char :=
  segs.flatMap (fun s => (Seg.content s).data)

/-- The JS method `String.prototype.includes` on character lists. -/
def containsChars (pat : List Char) : List Char → Bool
  | [] => pat.isEmpty
  | c :: rest => pat.isPrefixOf (c :: rest) || containsChars pat rest

/-- JS `s.includes(pat)`. -/
def containsStr (s pat : String) : Bool :=
  containsChars pat.data s.data

/-- Predicate: `pat` occurs contiguously inside `l`. -/
def ContainsSub (pat l : List Char) : Prop :=
  ∃ p q, l = p ++ pat ++ q

/-- The eight characters of a literal opening script tag. -/
def scriptPat : List Char := ['<', 's', 'c', 'r', 'i', 'p', 't', '>']

/-- The escaped form of the script tag produced by `escapeHtml`. -/
def escScriptPat : List Char := "&lt;script&gt;".data

/-- A character list without any opening angle bracket. -/
def NoLt (l : List Char) : Prop := ∀ c ∈ l, c ≠ '<'

/-- A literal chunk is safe for the script-tag search: it does not contain the
pattern, and it does not end inside a proper prefix of the pattern (so an
occurrence cannot start in the chunk and continue past its end). -/
def chunkSafe (l : List Char) : Bool :=
  !(containsChars scriptPat l) &&
  !((List.range 7).any (fun k => (scriptPat.take (k + 1)).isSuffixOf l))

/-- Local safety of one segment: literal chunks must be `chunkSafe`; dynamic
segments are checked separately (they carry no opening angle bracket). -/
def litOk : Seg → Bool
  | .lit s => chunkSafe s.data
  | .dyn _ => true

/-- All literal chunks of a segment list are locally safe. -/
def segsOk (segs : List Seg) : Bool := segs.all litOk

/-- Company branding constants of sendFormEmail.js lines 104-105. -/
def themeColor : String := "#3c0366"

/-- Fixed sender name (sendFormEmail.js line 105). -/
def companyName : String := "Robato Systems"

/-- Value `logoHtml` of sendFormEmail.js lines 124-126 as segments: an inline image
with the data URI when the logo fetch produced one, otherwise a fallback
coloured div. -/
def logoSegs (logo : Option String) : List Seg :=
  match logo with
  | some uri =>
      [Seg.lit ("<img src=\""),
       Seg.dyn (uri),
       Seg.lit ("\" alt=\"Robato Systems\" style=\"width:60px; height:60px; border-radius:8px; display:block; margin:0 auto;\" />")]
  | none =>
      [Seg.lit ("<div style=\"width:60px; height:60px; border-radius:8px; background:#3c0366; display:block; margin:0 auto;\"></div>")]

/-- Value `logoHtml` of sendFormEmail.js lines 124-126 as the interpolated string. -/
def logoHtml (logo : Option String) : String :=
  String.mk (renderSegs (logoSegs logo))
def welcomeContactSegs (base : String) (logo : Option String) (d : SafeData) : List Seg :=
  [Seg.lit ("\n      <!DOCTYPE html>"),
   Seg.lit ("\n      <html lang=\"en\">"),
   Seg.lit ("\n      <head>"),
   Seg.lit ("\n        <meta charset=\"UTF-8\">"),
   Seg.lit ("\n        <meta name=\"viewport\" content=\"width=device-width, initial-scale=1.0\">"),
   Seg.lit ("\n        <title>Thank you for contacting us</title>"),
   Seg.lit ("\n      </head>"),
   Seg.lit ("\n      <body style=\"margin:0; padding:0;\">"),
   Seg.lit ("\n        <div style=\"font-family: \x27Segoe UI\x27, Tahoma, Geneva, Verdana, sans-serif; color:#333; background:#f4f4f4; padding:40px 20px;\">"),
   Seg.lit ("\n          <div style=\"max-width:600px; margin:auto; background:#ffffff; border-radius:8px; overflow:hidden; box-shadow:0 2px 8px rgba(0,0,0,0.1);\">"),
   Seg.lit ("\n            <div style=\"background:#3c0366; padding:40px 30px; text-align:center;\">"),
   Seg.lit ("\n              <h1 style=\"margin:0; font-size:32px; color:#ffffff; font-weight:600; letter-spacing:-0.5px;\">Robato Systems</h1>"),
   Seg.lit ("\n            </div>"),
   Seg.lit ("\n            <div style=\"padding:40px 30px; line-height:1.8; font-size:15px; color:#444;\">"),
   Seg.lit ("\n              <div style=\"text-align:center; margin-bottom:25px;\">"),
   Seg.lit ("\n                ")] ++
  logoSegs logo ++
  [Seg.lit ("\n              </div>"),
   Seg.lit ("\n              <p style=\"margin:0 0 20px 0;\">Dear "),
   Seg.dyn (d.firstName),
   Seg.lit (" "),
   Seg.dyn (d.lastName),
   Seg.lit (",</p>"),
   Seg.lit ("\n              <p style=\"margin:0 0 20px 0;\">"),
   Seg.lit ("\n                <span style=\"font-size:18px;\">üìß</span> Thank you for contacting <strong>Robato Systems</strong>. We have received your inquiry and appreciate you taking the time to reach out to us."),
   Seg.lit ("\n              </p>"),
   Seg.lit ("\n              <p style=\"margin:0 0 20px 0;\">"),
   Seg.lit ("\n                <span style=\"font-size:18px;\">‚è±Ô∏è</span> Our team is currently reviewing your message and will respond within 24-48 business hours. We are committed to providing you with the information and assistance you need."),
   Seg.lit ("\n              </p>"),
   Seg.lit ("\n              <div style=\"background:#f8f8f8; border-left:4px solid #3c0366; padding:15px 20px; margin:25px 0; border-radius:4px;\">"),
   Seg.lit ("\n                <p style=\"margin:0; font-size:14px; color:#666;\"><strong>üìã Reference Information:</strong></p>"),
   Seg.lit ("\n                <p style=\"margin:5px 0 0 0; font-size:14px; color:#666;\">Name: "),
   Seg.dyn (d.firstName),
   Seg.lit (" "),
   Seg.dyn (d.lastName),
   Seg.lit ("<br/>Email: "),
   Seg.dyn (d.email),
   Seg.lit ("</p>"),
   Seg.lit ("\n              </div>"),
   Seg.lit ("\n              <p style=\"margin:0 0 20px 0;\">"),
   Seg.lit ("\n                <span style=\"font-size:18px;\">üí¨</span> If you have any urgent concerns or additional information to share, please feel free to reply to this email directly."),
   Seg.lit ("\n              </p>"),
   Seg.lit ("\n              <div style=\"text-align:center; margin:35px 0;\">"),
   Seg.lit ("\n                <a href=\""),
   Seg.dyn (base),
   Seg.lit ("\" style=\"background:#3c0366; color:#ffffff; text-decoration:none; padding:14px 32px; border-radius:4px; font-weight:600; font-size:15px; display:inline-block;\">üåê Visit Our Website</a>"),
   Seg.lit ("\n              </div>"),
   Seg.lit ("\n              <p style=\"margin:30px 0 0 0; padding-top:20px; border-top:1px solid #e0e0e0; color:#666; font-size:14px; line-height:1.6;\">"),
   Seg.lit ("\n                Best regards,<br/>"),
   Seg.lit ("\n                <strong>Robato Systems Team</strong>"),
   Seg.lit ("\n              </p>"),
   Seg.lit ("\n            </div>"),
   Seg.lit ("\n          </div>"),
   Seg.lit ("\n        </div>"),
   Seg.lit ("\n      </body>"),
   Seg.lit ("\n      </html>")]

def adminContactSegs (d : SafeData) : List Seg :=
  [Seg.lit ("\n      <!DOCTYPE html>"),
   Seg.lit ("\n      <html lang=\"en\">"),
   Seg.lit ("\n      <head>"),
   Seg.lit ("\n        <meta charset=\"UTF-8\">"),
   Seg.lit ("\n        <meta name=\"viewport\" content=\"width=device-width, initial-scale=1.0\">"),
   Seg.lit ("\n        <title>New Contact Form Submission: "),
   Seg.dyn (d.firstName),
   Seg.lit (" "),
   Seg.dyn (d.lastName),
   Seg.lit ("</title>"),
   Seg.lit ("\n      </head>"),
   Seg.lit ("\n      <body style=\"margin:0; padding:0;\">"),
   Seg.lit ("\n        <div style=\"font-family: Helvetica, Arial, sans-serif; color:#333; background:#f7f7f7; padding:20px;\">"),
   Seg.lit ("\n          <div style=\"max-width:600px; margin:auto; background:#fff; border-radius:12px; overflow:hidden; box-shadow:0 4px 12px rgba(0,0,0,0.05);\">"),
   Seg.lit ("\n            <div style=\"background:#3c0366; color:#fff; padding:20px; text-align:center;\">"),
   Seg.lit ("\n              <h1 style=\"margin:0; font-size:28px;\">Robato Systems</h1>"),
   Seg.lit ("\n            </div>"),
   Seg.lit ("\n            <div style=\"padding:25px; line-height:1.6; font-size:16px;\">"),
   Seg.lit ("\n              <h2 style=\"color:#3c0366; border-bottom:2px solid #3c0366; padding-bottom:5px; margin-top:0;\">New Contact Form Submission</h2>"),
   Seg.lit ("\n              <table style=\"width:100%; border-collapse:collapse; margin-top:15px;\">"),
   Seg.lit ("\n                <tr>"),
   Seg.lit ("\n                  <td style=\"padding:8px 0; border-bottom:1px solid #f0f0f0;\"><strong>First Name:</strong></td>"),
   Seg.lit ("\n                  <td style=\"padding:8px 0; border-bottom:1px solid #f0f0f0;\">"),
   Seg.dyn (d.firstName),
   Seg.lit ("</td>"),
   Seg.lit ("\n                </tr>"),
   Seg.lit ("\n                <tr>"),
   Seg.lit ("\n                  <td style=\"padding:8px 0; border-bottom:1px solid #f0f0f0;\"><strong>Last Name:</strong></td>"),
   Seg.lit ("\n                  <td style=\"padding:8px 0; border-bottom:1px solid #f0f0f0;\">"),
   Seg.dyn (d.lastName),
   Seg.lit ("</td>"),
   Seg.lit ("\n                </tr>"),
   Seg.lit ("\n                <tr>"),
   Seg.lit ("\n                  <td style=\"padding:8px 0; border-bottom:1px solid #f0f0f0;\"><strong>Email:</strong></td>"),
   Seg.lit ("\n                  <td style=\"padding:8px 0; border-bottom:1px solid #f0f0f0;\"><a href=\"mailto:"),
   Seg.dyn (d.email),
   Seg.lit ("\" style=\"color:#3c0366;\">"),
   Seg.dyn (d.email),
   Seg.lit ("</a></td>"),
   Seg.lit ("\n                </tr>"),
   Seg.lit ("\n                <tr>"),
   Seg.lit ("\n                  <td style=\"padding:8px 0; border-bottom:1px solid #f0f0f0;\"><strong>Phone:</strong></td>"),
   Seg.lit ("\n                  <td style=\"padding:8px 0; border-bottom:1px solid #f0f0f0;\"><a href=\"tel:"),
   Seg.dyn (d.phone),
   Seg.lit ("\" style=\"color:#3c0366;\">"),
   Seg.dyn (d.phone),
   Seg.lit ("</a></td>"),
   Seg.lit ("\n                </tr>"),
   Seg.lit ("\n                <tr>"),
   Seg.lit ("\n                  <td style=\"padding:8px 0; border-bottom:1px solid #f0f0f0;\"><strong>Company:</strong></td>"),
   Seg.lit ("\n                  <td style=\"padding:8px 0; border-bottom:1px solid #f0f0f0;\">"),
   Seg.dyn (d.company),
   Seg.lit ("</td>"),
   Seg.lit ("\n                </tr>"),
   Seg.lit ("\n                <tr>"),
   Seg.lit ("\n                  <td style=\"padding:8px 0; border-bottom:1px solid #f0f0f0;\"><strong>Job Title:</strong></td>"),
   Seg.lit ("\n                  <td style=\"padding:8px 0; border-bottom:1px solid #f0f0f0;\">"),
   Seg.dyn (d.jobTitle),
   Seg.lit ("</td>"),
   Seg.lit ("\n                </tr>"),
   Seg.lit ("\n              </table>"),
   Seg.lit ("\n              <div style=\"margin-top:20px; padding:15px; background:#f0f0f0; border-radius:6px; border-left:4px solid #3c0366;\">"),
   Seg.lit ("\n                <strong style=\"color:#3c0366;\">Message:</strong>"),
   Seg.lit ("\n                <p style=\"margin:10px 0 0 0; white-space:pre-wrap; word-wrap:break-word;\">"),
   Seg.dyn (d.message),
   Seg.lit ("</p>"),
   Seg.lit ("\n              </div>"),
   Seg.lit ("\n            </div>"),
   Seg.lit ("\n          </div>"),
   Seg.lit ("\n        </div>"),
   Seg.lit ("\n      </body>"),
   Seg.lit ("\n      </html>")]

def welcomeTrialSegs (base : String) (logo : Option String) (d : SafeData) : List Seg :=
  [Seg.lit ("\n      <!DOCTYPE html>"),
   Seg.lit ("\n      <html lang=\"en\">"),
   Seg.lit ("\n      <head>"),
   Seg.lit ("\n        <meta charset=\"UTF-8\">"),
   Seg.lit ("\n        <meta name=\"viewport\" content=\"width=device-width, initial-scale=1.0\">"),
   Seg.lit ("\n        <title>Thank you for booking a demo</title>"),
   Seg.lit ("\n      </head>"),
   Seg.lit ("\n      <body style=\"margin:0; padding:0;\">"),
   Seg.lit ("\n        <div style=\"font-family: \x27Segoe UI\x27, Tahoma, Geneva, Verdana, sans-serif; color:#333; background:#f4f4f4; padding:40px 20px;\">"),
   Seg.lit ("\n          <div style=\"max-width:600px; margin:auto; background:#ffffff; border-radius:8px; overflow:hidden; box-shadow:0 2px 8px rgba(0,0,0,0.1);\">"),
   Seg.lit ("\n            <div style=\"background:#3c0366; padding:40px 30px; text-align:center;\">"),
   Seg.lit ("\n              <h1 style=\"margin:0; font-size:32px; color:#ffffff; font-weight:600; letter-spacing:-0.5px;\">Robato Systems</h1>"),
   Seg.lit ("\n            </div>"),
   Seg.lit ("\n            <div style=\"padding:40px 30px; line-height:1.8; font-size:15px; color:#444;\">"),
   Seg.lit ("\n              <div style=\"text-align:center; margin-bottom:25px;\">"),
   Seg.lit ("\n                ")] ++
  logoSegs logo ++
  [Seg.lit ("\n              </div>"),
   Seg.lit ("\n              <p style=\"margin:0 0 20px 0;\">Dear "),
   Seg.dyn (d.firstName),
   Seg.lit (" "),
   Seg.dyn (d.lastName),
   Seg.lit (",</p>"),
   Seg.lit ("\n              <p style=\"margin:0 0 20px 0;\">"),
   Seg.lit ("\n                <span style=\"font-size:18px;\">üìß</span> Thank you for your interest in <strong>Robato Systems</strong> and for requesting a product demonstration. We are excited to show you how our solutions can benefit your organization."),
   Seg.lit ("\n              </p>"),
   Seg.lit ("\n              <p style=\"margin:0 0 20px 0;\">"),
   Seg.lit ("\n                <span style=\"font-size:18px;\">‚è±Ô∏è</span> Our team will contact you within the next 24 business hours to schedule a convenient time for your personalized demo session."),
   Seg.lit ("\n              </p>"),
   Seg.lit ("\n              <div style=\"background:#f8f8f8; border-left:4px solid #3c0366; padding:15px 20px; margin:25px 0; border-radius:4px;\">"),
   Seg.lit ("\n                <p style=\"margin:0; font-size:14px; color:#666;\"><strong>üìã Reference Information:</strong></p>"),
   Seg.lit ("\n                <p style=\"margin:5px 0 0 0; font-size:14px; color:#666;\">Name: "),
   Seg.dyn (d.firstName),
   Seg.lit (" "),
   Seg.dyn (d.lastName),
   Seg.lit ("<br/>Email: "),
   Seg.dyn (d.email),
   Seg.lit ("<br/>Company: "),
   Seg.dyn (d.company),
   Seg.lit ("</p>"),
   Seg.lit ("\n              </div>"),
   Seg.lit ("\n              <p style=\"margin:0 0 20px 0;\">"),
   Seg.lit ("\n                <span style=\"font-size:18px;\">üí¨</span> In the meantime, feel free to explore our resources or reach out if you have any questions."),
   Seg.lit ("\n              </p>"),
   Seg.lit ("\n              <div style=\"text-align:center; margin:35px 0;\">"),
   Seg.lit ("\n                <a href=\""),
   Seg.dyn (base),
   Seg.lit ("\" style=\"background:#3c0366; color:#ffffff; text-decoration:none; padding:14px 32px; border-radius:4px; font-weight:600; font-size:15px; display:inline-block;\">üåê Visit Our Website</a>"),
   Seg.lit ("\n              </div>"),
   Seg.lit ("\n              <p style=\"margin:30px 0 0 0; padding-top:20px; border-top:1px solid #e0e0e0; color:#666; font-size:14px; line-height:1.6;\">"),
   Seg.lit ("\n                Best regards,<br/>"),
   Seg.lit ("\n                <strong>Robato Systems Team</strong>"),
   Seg.lit ("\n              </p>"),
   Seg.lit ("\n            </div>"),
   Seg.lit ("\n          </div>"),
   Seg.lit ("\n        </div>"),
   Seg.lit ("\n      </body>"),
   Seg.lit ("\n      </html>")]

def adminTrialSegs (d : SafeData) : List Seg :=
  [Seg.lit ("\n      <!DOCTYPE html>"),
   Seg.lit ("\n      <html lang=\"en\">"),
   Seg.lit ("\n      <head>"),
   Seg.lit ("\n        <meta charset=\"UTF-8\">"),
   Seg.lit ("\n        <meta name=\"viewport\" content=\"width=device-width, initial-scale=1.0\">"),
   Seg.lit ("\n        <title>New Trial Form Submission: "),
   Seg.dyn (d.firstName),
   Seg.lit (" "),
   Seg.dyn (d.lastName),
   Seg.lit ("</title>"),
   Seg.lit ("\n      </head>"),
   Seg.lit ("\n      <body style=\"margin:0; padding:0;\">"),
   Seg.lit ("\n        <div style=\"font-family: Helvetica, Arial, sans-serif; color:#333; background:#f7f7f7; padding:20px;\">"),
   Seg.lit ("\n          <div style=\"max-width:600px; margin:auto; background:#fff; border-radius:12px; overflow:hidden; box-shadow:0 4px 12px rgba(0,0,0,0.05);\">"),
   Seg.lit ("\n            <div style=\"background:#3c0366; color:#fff; padding:20px; text-align:center;\">"),
   Seg.lit ("\n              <h1 style=\"margin:0; font-size:28px;\">Robato Systems</h1>"),
   Seg.lit ("\n            </div>"),
   Seg.lit ("\n            <div style=\"padding:25px; line-height:1.6; font-size:16px;\">"),
   Seg.lit ("\n              <h2 style=\"color:#3c0366; border-bottom:2px solid #3c0366; padding-bottom:5px; margin-top:0;\">New Trial Form Submission</h2>"),
   Seg.lit ("\n              <table style=\"width:100%; border-collapse:collapse; margin-top:15px;\">"),
   Seg.lit ("\n                <tr>"),
   Seg.lit ("\n                  <td style=\"padding:8px 0; border-bottom:1px solid #f0f0f0;\"><strong>First Name:</strong></td>"),
   Seg.lit ("\n                  <td style=\"padding:8px 0; border-bottom:1px solid #f0f0f0;\">"),
   Seg.dyn (d.firstName),
   Seg.lit ("</td>"),
   Seg.lit ("\n                </tr>"),
   Seg.lit ("\n                <tr>"),
   Seg.lit ("\n                  <td style=\"padding:8px 0; border-bottom:1px solid #f0f0f0;\"><strong>Last Name:</strong></td>"),
   Seg.lit ("\n                  <td style=\"padding:8px 0; border-bottom:1px solid #f0f0f0;\">"),
   Seg.dyn (d.lastName),
   Seg.lit ("</td>"),
   Seg.lit ("\n                </tr>"),
   Seg.lit ("\n                <tr>"),
   Seg.lit ("\n                  <td style=\"padding:8px 0; border-bottom:1px solid #f0f0f0;\"><strong>Email:</strong></td>"),
   Seg.lit ("\n                  <td style=\"padding:8px 0; border-bottom:1px solid #f0f0f0;\"><a href=\"mailto:"),
   Seg.dyn (d.email),
   Seg.lit ("\" style=\"color:#3c0366;\">"),
   Seg.dyn (d.email),
   Seg.lit ("</a></td>"),
   Seg.lit ("\n                </tr>"),
   Seg.lit ("\n                <tr>"),
   Seg.lit ("\n                  <td style=\"padding:8px 0; border-bottom:1px solid #f0f0f0;\"><strong>Phone:</strong></td>"),
   Seg.lit ("\n                  <td style=\"padding:8px 0; border-bottom:1px solid #f0f0f0;\"><a href=\"tel:"),
   Seg.dyn (d.phone),
   Seg.lit ("\" style=\"color:#3c0366;\">"),
   Seg.dyn (d.phone),
   Seg.lit ("</a></td>"),
   Seg.lit ("\n                </tr>"),
   Seg.lit ("\n                <tr>"),
   Seg.lit ("\n                  <td style=\"padding:8px 0; border-bottom:1px solid #f0f0f0;\"><strong>Company:</strong></td>"),
   Seg.lit ("\n                  <td style=\"padding:8px 0; border-bottom:1px solid #f0f0f0;\">"),
   Seg.dyn (d.company),
   Seg.lit ("</td>"),
   Seg.lit ("\n                </tr>"),
   Seg.lit ("\n                <tr>"),
   Seg.lit ("\n                  <td style=\"padding:8px 0; border-bottom:1px solid #f0f0f0;\"><strong>Job Title:</strong></td>"),
   Seg.lit ("\n                  <td style=\"padding:8px 0; border-bottom:1px solid #f0f0f0;\">"),
   Seg.dyn (d.jobTitle),
   Seg.lit ("</td>"),
   Seg.lit ("\n                </tr>"),
   Seg.lit ("\n                <tr>"),
   Seg.lit ("\n                  <td style=\"padding:8px 0; border-bottom:1px solid #f0f0f0;\"><strong>Country:</strong></td>"),
   Seg.lit ("\n                  <td style=\"padding:8px 0; border-bottom:1px solid #f0f0f0;\">"),
   Seg.dyn (d.country),
   Seg.lit ("</td>"),
   Seg.lit ("\n                </tr>"),
   Seg.lit ("\n              </table>"),
   Seg.lit ("\n              <div style=\"margin-top:20px; padding:15px; background:#f0f0f0; border-radius:6px; border-left:4px solid #3c0366;\">"),
   Seg.lit ("\n                <strong style=\"color:#3c0366;\">Message:</strong>"),
   Seg.lit ("\n                <p style=\"margin:10px 0 0 0; white-space:pre-wrap; word-wrap:break-word;\">"),
   Seg.dyn (d.message),
   Seg.lit ("</p>"),
   Seg.lit ("\n              </div>"),
   Seg.lit ("\n            </div>"),
   Seg.lit ("\n          </div>"),
   Seg.lit ("\n        </div>"),
   Seg.lit ("\n      </body>"),
   Seg.lit ("\n      </html>")]

/-- Document `htmlWelcome` for formType contact (sendFormEmail.js lines 137-180). -/
def htmlWelcomeContact (base : String) (logo : Option String) (d : SafeData) : String :=
  String.mk (renderSegs (welcomeContactSegs base logo d))

/-- Document `htmlAdmin` for formType contact (sendFormEmail.js lines 182-232). -/
def htmlAdminContact (d : SafeData) : String :=
  String.mk (renderSegs (adminContactSegs d))

/-- Document `htmlWelcome` for formType trial (sendFormEmail.js lines 237-280). -/
def htmlWelcomeTrial (base : String) (logo : Option String) (d : SafeData) : String :=
  String.mk (renderSegs (welcomeTrialSegs base logo d))

/-- Document `htmlAdmin` for formType trial (sendFormEmail.js lines 282-336). -/
def htmlAdminTrial (d : SafeData) : String :=
  String.mk (renderSegs (adminTrialSegs d))

/-- Subject `adminSubject` for formType contact (sendFormEmail.js line 135). -/
def adminSubjectContact (d : SafeData) : String :=
  "New Contact Form Submission: " ++ d.firstName ++ " " ++ d.lastName

/-- Subject `adminSubject` for formType trial (sendFormEmail.js line 235). -/
def adminSubjectTrial (d : SafeData) : String :=
  "New Trial Form Submission: " ++ d.firstName ++ " " ++ d.lastName

/-- The JSON payload built by the inner `sendEmail` helper (sendFormEmail.js
lines 355-366); an absent cc property is modelled by the empty list. -/
structure EmailPayload where
  «to» : List String
  cc : List String
  replyTo : String
  subject : String
  htmlContent : String
  fromEmail : String
  fromName : String

/-- One outbound HTTP request issued during a sendFormEmail invocation:
either the logo fetch of `getLogoBase64`, or a POST of an email payload to
the provider endpoint. -/
inductive OutboundCall where
  | logoFetch (url : String)
  | emailPost (payload : EmailPayload)

/-- The provider's reaction to one email POST: a response with an HTTP status
and the optional `message` field of its JSON body (plus the raw body used for
the stringify fallback), or a throw from fetch / body parsing. -/
inductive ProviderResponse where
  | httpResponse (status : Nat) (message : Option String) (rawBody : String)
  | thrown (msg : String)

/-- The error text picked on a non-ok response (sendFormEmail.js line 387):
`json.message || JSON.stringify(json)`. -/
def brevoErrText (message : Option String) (rawBody : String) : String :=
  jsOr message rawBody

/-- Result of one inner `sendEmail` call (sendFormEmail.js lines 342-396):
a non-2xx status raises an error carrying the provider status and message,
and the surrounding catch prefixes every failure with Failed to send email. -/
def sendEmailCall (resp : ProviderResponse) : Except String Unit :=
  match resp with
  | .thrown m => .error ("Failed to send email: " ++ m)
  | .httpResponse st msg raw =>
      if statusOk st then .ok ()
      else .error ("Failed to send email: " ++
        ("Brevo API returned " ++ toString st ++ ": " ++ brevoErrText msg raw))

/-- The environment variables read by sendFormEmail (lines 73-75, 88, 93). -/
structure Env where
  brevoApiKey : Option String
  adminEmail : Option String
  baseUrl : Option String
  ccEmails : Option String
  replyToEmail : Option String

/-- The value resolved by a successful sendFormEmail run (lines 421-424). -/
structure SendSuccess where
  success : Bool
  message : String
deriving DecidableEq

/-- Function `sendFormEmail` of sendFormEmail.js lines 71-428, as a function of the
environment, the submission, the logo-fetch outcome and the provider's
reactions to the two email POSTs.  It returns the resolved value or the
thrown error message, together with the ordered list of outbound HTTP
requests the invocation issued. -/
def sendFormEmail (env : Env) (fd : FormData) (formType : String)
    (logoOutcome : FetchOutcome) (r1 r2 : ProviderResponse) :
    Except String SendSuccess × List OutboundCall :=
  if falsyStr env.brevoApiKey then
    (.error ("BREVO_API_KEY environment variable is not set"), [])
  else if falsyStr env.adminEmail then
    (.error ("ADMIN_EMAIL environment variable is not set"), [])
  else if falsyStr env.baseUrl then
    (.error ("NEXT_PUBLIC_BASE_URL environment variable is not set"), [])
  else
    let ADMIN := env.adminEmail.getD ("")
    let BASE := env.baseUrl.getD ("")
    let CC := parseCcEmails env.ccEmails
    let REPLY := jsOr env.replyToEmail ADMIN
    if !isValidEmail REPLY then (.error ("Invalid REPLY_TO_EMAIL address"), [])
    else
      match validateFormData fd formType with
      | .error e => (.error e, [])
      | .ok _ =>
        let logoBase64 := getLogoBase64 logoOutcome
        let d := safeData fd
        let emailRaw := fd.email.getD ("")
        let userSubject :=
          if formType = "contact" then ("Thank you for contacting us")
          else if formType = "trial" then ("Thank you for booking a demo") else ("")
        let adminSubject :=
          if formType = "contact" then adminSubjectContact d
          else if formType = "trial" then adminSubjectTrial d else ("")
        let htmlW :=
          if formType = "contact" then htmlWelcomeContact BASE logoBase64 d
          else if formType = "trial" then htmlWelcomeTrial BASE logoBase64 d else ("")
        let htmlA :=
          if formType = "contact" then htmlAdminContact d
          else if formType = "trial" then htmlAdminTrial d else ("")
        let call1 : EmailPayload :=
          { «to» := [emailRaw], cc := [], replyTo := REPLY, subject := userSubject
            htmlContent := htmlW, fromEmail := ADMIN, fromName := companyName }
        let call2 : EmailPayload :=
          { «to» := [ADMIN], cc := CC, replyTo := emailRaw, subject := adminSubject
            htmlContent := htmlA, fromEmail := ADMIN, fromName := companyName }
        let trace0 := [OutboundCall.logoFetch (BASE ++ "/web-logo.png")]
        match sendEmailCall r1 with
        | .error e =>
            (.error ("Email delivery failed: " ++ e),
             trace0 ++ [OutboundCall.emailPost call1])
        | .ok _ =>
            match sendEmailCall r2 with
            | .error e =>
                (.error ("Email delivery failed: " ++ e),
                 trace0 ++ [OutboundCall.emailPost call1, OutboundCall.emailPost call2])
            | .ok _ =>
                (.ok { success := true, message := "Emails sent successfully" },
                 trace0 ++ [OutboundCall.emailPost call1, OutboundCall.emailPost call2])

/-- Node `path.extname` on a POSIX path: the final-segment suffix starting at
its last dot, empty when the segment has no dot or only a leading dot. -/
def pathExtname (p : String) : String :=
  let base := ((p.splitOn ("/")).getLastD ("")).data
  let afterDot := (base.reverse.takeWhile (fun c => c != '.')).reverse
  if afterDot.length = base.length then ("")
  else if base.length - afterDot.length - 1 = 0 then ("")
  else String.mk ('.' :: afterDot)

/-- The extension choice of the upload-by-URL handler
(src/app/api/upload-url/route.js lines 76-92 of the content-type-aware POST):
start from the default jpg; when the content-type header is present (truthy),
pick by substring on it; otherwise fall back to the lower-cased extension of
the URL pathname when it is one of the recognised ones.  The pathname of
`new URL(imageUrl)` is taken as an input. -/
def inferExtension (contentType : Option String) (urlPathname : String) : String :=
  if !falsyStr contentType then
    let ct := contentType.getD ("")
    if containsStr ct ("png") then ("png")
    else if containsStr ct ("jpeg") || containsStr ct ("jpg") then ("jpg")
    else if containsStr ct ("gif") then ("gif")
    else if containsStr ct ("webp") then ("webp")
    else ("jpg")
  else
    let urlExt := ((pathExtname urlPathname).toLower).replace (".") ("")
    if urlExt ≠ "" &&
       (urlExt = "jpg" || urlExt = "jpeg" || urlExt = "png" || urlExt = "gif" || urlExt = "webp") then
      urlExt
    else ("jpg")

/-- The stored filename of the upload-by-URL handler (route.js lines 94-96):
timestamp, the fixed stem, and the inferred extension. -/
def uploadUrlFilename (timestamp : Nat) (contentType : Option String) (urlPathname : String) : String :=
  toString timestamp ++ "-url-image." ++ inferExtension contentType urlPathname

/-- The relative url returned by the handler (route.js line 113). -/
def uploadUrlStoredUrl (timestamp : Nat) (contentType : Option String) (urlPathname : String) : String :=
  "/uploads/blogs/" ++ uploadUrlFilename timestamp contentType urlPathname

/-- The language of the validation regex `^[^\s@]+@[^\s@]+\.[^\s@]+$`, stated
as the spec reads it: a non-empty local part, an at sign, and a domain with a
dot separating two non-empty runs, every run free of whitespace and at
signs. -/
def EmailPattern (l : List Char) : Prop :=
  ∃ a b c : List Char,
    l = a ++ '@' :: (b ++ '.' :: c) ∧
    a ≠ [] ∧ b ≠ [] ∧ c ≠ [] ∧
    (∀ ch ∈ a, ch ≠ '@' ∧ jsSpace ch = false) ∧
    (∀ ch ∈ b, ch ≠ '@' ∧ jsSpace ch = false) ∧
    (∀ ch ∈ c, ch ≠ '@' ∧ jsSpace ch = false)

/-! Helper lemmas: the escape function never emits an opening bracket -/

theorem escapeChar_noLt (ch : Char) : NoLt (escapeChar ch).data := by
  intro c hc
  unfold escapeChar at hc
  split at hc
  · exact (by decide : ∀ x ∈ ("&amp;").data, x ≠ '<') c hc
  · split at hc
    · exact (by decide : ∀ x ∈ ("&lt;").data, x ≠ '<') c hc
    · split at hc
      · exact (by decide : ∀ x ∈ ("&gt;").data, x ≠ '<') c hc
      · split at hc
        · exact (by decide : ∀ x ∈ ("&quot;").data, x ≠ '<') c hc
        · split at hc
          · exact (by decide : ∀ x ∈ ("&#039;").data, x ≠ '<') c hc
          · rename_i h1 h2 h3 h4 h5
            simp [String.singleton] at hc
            subst hc
            exact h2

theorem escData_noLt (l : List Char) : NoLt (escData l) := by
  intro c hc
  unfold escData at hc
  rcases List.mem_flatMap.mp hc with ⟨ch, _, hmem⟩
  exact escapeChar_noLt ch c hmem

theorem escapeHtml_noLt (o : Option String) : NoLt (escapeHtml o).data := by
  rcases o with _ | s
  · intro c hc; simp [escapeHtml] at hc
  · by_cases h : s = ""
    · intro c hc; simp [escapeHtml, h] at hc
    · intro c hc
      simp only [escapeHtml, h, if_neg] at hc
      exact escData_noLt s.data c hc

theorem escData_append (a b : List Char) : escData (a ++ b) = escData a ++ escData b := by
  simp [escData]

/-! Helper lemmas: occurrence of a pattern inside concatenations -/

theorem containsSub_append_left (pat m b : List Char) (h : ContainsSub pat m) :
    ContainsSub pat (m ++ b) := by
  rcases h with ⟨p, q, rfl⟩
  exact ⟨p, q ++ b, by simp⟩

theorem containsSub_append_right (pat a m : List Char) (h : ContainsSub pat m) :
    ContainsSub pat (a ++ m) := by
  rcases h with ⟨p, q, rfl⟩
  exact ⟨a ++ p, q, by simp⟩

theorem escData_containsSub (pat l : List Char) (h : ContainsSub pat l) :
    ContainsSub (escData pat) (escData l) := by
  rcases h with ⟨p, q, rfl⟩
  exact ⟨escData p, escData q, by simp [escData_append]⟩

theorem renderSegs_containsSub (segs : List Seg) (seg : Seg) (pat : List Char)
    (hm : seg ∈ segs) (h : ContainsSub pat (Seg.content seg).data) :
    ContainsSub pat (renderSegs segs) := by
  induction segs with
  | nil => cases hm
  | cons x rest ih =>
      have hsplit : renderSegs (x :: rest) = (Seg.content x).data ++ renderSegs rest := by
        simp [renderSegs]
      rcases List.mem_cons.mp hm with heq | hm2
      · rw [hsplit, ← heq]
        exact containsSub_append_left _ _ _ h
      · rw [hsplit]
        exact containsSub_append_right _ _ _ (ih hm2)

/-! Helper lemmas: the script-tag search automaton -/

/-! Helper lemmas: no literal script tag can occur in a rendered template -/

theorem containsChars_of_prefix (pat l : List Char) (h : pat <+: l) :
    containsChars pat l = true := by
  induction l with
  | nil =>
      have : pat = [] := List.prefix_nil.mp h
      simp [containsChars, this]
  | cons c rest ih =>
      have : pat.isPrefixOf (c :: rest) = true := List.isPrefixOf_iff_prefix.mpr h
      simp [containsChars, this]

theorem containsChars_of_containsSub (pat l : List Char) (h : ContainsSub pat l) :
    containsChars pat l = true := by
  rcases h with ⟨p, q, rfl⟩
  induction p with
  | nil => exact containsChars_of_prefix _ _ (by simp)
  | cons c p' ih =>
      rw [List.cons_append]
      simp only [containsChars, Bool.or_eq_true, List.isPrefixOf_iff_prefix]
      exact Or.inr (by simpa using ih)

theorem no_script_render (segs : List Seg)
    (hok : segsOk segs = true)
    (hdyn : ∀ s, Seg.dyn s ∈ segs → NoLt s.data) :
    ¬ ContainsSub scriptPat (renderSegs segs) := by
  induction segs with
  | nil =>
      rintro ⟨p, q, hpq⟩
      simp [renderSegs] at hpq
      exact absurd hpq.2.1 (by decide)
  | cons x rest ih =>
      have hok2 : litOk x = true ∧ segsOk rest = true := by
        simpa [segsOk] using hok
      have ihr : ¬ ContainsSub scriptPat (renderSegs rest) :=
        ih hok2.2 (fun u hu => hdyn u (by simp [hu]))
      have hxSafe : ∀ s, x = Seg.lit s → chunkSafe s.data = true := by
        intro s hx; subst hx; simpa [litOk] using hok2.1
      have hxNoLt : ∀ s, x = Seg.dyn s → NoLt s.data := by
        intro s hx; subst hx; exact hdyn s (by simp)
      -- the head segment text cannot contain the pattern
      have hNoContain : ¬ ContainsSub scriptPat (Seg.content x).data := by
        intro hcx
        rcases x with s | s
        · have h1 := containsChars_of_containsSub _ _ hcx
          have h2 := hxSafe s rfl
          simp only [Seg.content] at h1
          simp [chunkSafe, h1] at h2
        · rcases hcx with ⟨p, q, hpq⟩
          have : '<' ∈ (Seg.content (Seg.dyn s)).data := by
            rw [hpq]
            exact List.mem_append.mpr (Or.inl (List.mem_append.mpr (Or.inr (by decide))))
          exact hxNoLt s rfl '<' (by simpa [Seg.content] using this) rfl
      -- the head segment text cannot end inside a proper prefix of the pattern
      have hNoTail : ∀ t : List Char, t ≠ [] → t.length ≤ 7 → t <+: scriptPat →
          ¬ t <:+ (Seg.content x).data := by
        intro t ht hlen hpre hsuf
        rcases x with s | s
        · simp only [Seg.content] at hsuf
          have hb : ∀ k, k < 7 → ¬ ((scriptPat.take (k + 1)) <:+ s.data) := by
            intro k hk hsuf2
            have h2 := hxSafe s rfl
            simp only [chunkSafe, Bool.and_eq_true, Bool.not_eq_true'] at h2
            have := List.any_eq_false.mp h2.2 _ (List.mem_range.mpr hk)
            exact absurd (List.isSuffixOf_iff_suffix.mpr hsuf2) (by simp [this])
          have htake : scriptPat.take ((t.length - 1) + 1) = t := by
            have h1 : t = scriptPat.take t.length := by
              rcases hpre with ⟨r, hr⟩
              rw [← hr]
              simp
            have h2 : (t.length - 1) + 1 = t.length := by
              rcases t with _ | ⟨a, t2⟩
              · exact absurd rfl ht
              · simp
            rw [h2, ← h1]
          have hk7 : t.length - 1 < 7 := by omega
          exact hb (t.length - 1) hk7 (by rwa [htake])
        · simp only [Seg.content] at hsuf
          have hlt : '<' ∈ t := by
            rcases hpre with ⟨r, hr⟩
            rcases t with _ | ⟨a, t2⟩
            · exact absurd rfl ht
            · have : a = '<' := by
                have := congrArg (fun l => l.head?) hr
                simpa [scriptPat] using this
              simp [this]
          exact hxNoLt s rfl '<' (hsuf.subset hlt) rfl
      -- split the occurrence across the head/tail boundary
      rintro ⟨p, q, heq⟩
      have hrender : renderSegs (x :: rest) = (Seg.content x).data ++ renderSegs rest := by
        simp [renderSegs]
      rw [hrender, List.append_assoc] at heq
      rcases List.append_eq_append_iff.mp heq with ⟨t, hp, hR⟩ | ⟨t, hx, hQ⟩
      · exact ihr ⟨t, q, by rw [hR, List.append_assoc]⟩
      · have ht1 : t <+: scriptPat ++ q := ⟨renderSegs rest, hQ.symm⟩
        have ht2 : scriptPat <+: scriptPat ++ q := ⟨q, rfl⟩
        rcases List.prefix_or_prefix_of_prefix ht1 ht2 with hpre | hpre
        · by_cases hnil : t = []
          · subst hnil
            exact ihr ⟨[], q, by simpa using hQ.symm⟩
          · by_cases hlen : t.length ≤ 7
            · exact hNoTail t hnil hlen hpre ⟨p, hx.symm⟩
            · have h8 : t.length = 8 := by
                have := hpre.length_le
                simp [scriptPat] at this
                omega
              have : t = scriptPat := List.IsPrefix.eq_of_length hpre (by simp [scriptPat, h8])
              subst this
              exact hNoContain ⟨p, [], by simp [hx]⟩
        · rcases hpre with ⟨t2, ht2⟩
          exact hNoContain ⟨p, t2, by rw [hx, ← ht2, List.append_assoc]⟩

theorem escData_script : escData scriptPat = escScriptPat := by decide

set_option maxRecDepth 8000 in
theorem segsOk_welcomeContact (base : String) (logo : Option String) (d : SafeData) :
    segsOk (welcomeContactSegs base logo d) = true := by
  rcases logo with _ | u <;> rfl

set_option maxRecDepth 8000 in
theorem segsOk_adminContact (d : SafeData) : segsOk (adminContactSegs d) = true := rfl

set_option maxRecDepth 8000 in
theorem segsOk_welcomeTrial (base : String) (logo : Option String) (d : SafeData) :
    segsOk (welcomeTrialSegs base logo d) = true := by
  rcases logo with _ | u <;> rfl

set_option maxRecDepth 8000 in
theorem segsOk_adminTrial (d : SafeData) : segsOk (adminTrialSegs d) = true := rfl

theorem dyn_welcomeContact (base : String) (logo : Option String) (d : SafeData) (s : String)
    (hs : Seg.dyn s ∈ welcomeContactSegs base logo d) :
    s = d.firstName ∨ s = d.lastName ∨ s = d.email ∨ s = base ∨ ∃ u, logo = some u ∧ s = u := by
  rcases logo with _ | u
  · simp [welcomeContactSegs, logoSegs] at hs
    tauto
  · simp [welcomeContactSegs, logoSegs] at hs
    tauto

theorem dyn_adminContact (d : SafeData) (s : String)
    (hs : Seg.dyn s ∈ adminContactSegs d) :
    s = d.firstName ∨ s = d.lastName ∨ s = d.email ∨ s = d.phone ∨
    s = d.company ∨ s = d.jobTitle ∨ s = d.message := by
  simp [adminContactSegs] at hs
  tauto

theorem dyn_welcomeTrial (base : String) (logo : Option String) (d : SafeData) (s : String)
    (hs : Seg.dyn s ∈ welcomeTrialSegs base logo d) :
    s = d.firstName ∨ s = d.lastName ∨ s = d.email ∨ s = d.company ∨ s = base ∨
    ∃ u, logo = some u ∧ s = u := by
  rcases logo with _ | u
  · simp [welcomeTrialSegs, logoSegs] at hs
    tauto
  · simp [welcomeTrialSegs, logoSegs] at hs
    tauto

theorem dyn_adminTrial (d : SafeData) (s : String)
    (hs : Seg.dyn s ∈ adminTrialSegs d) :
    s = d.firstName ∨ s = d.lastName ∨ s = d.email ∨ s = d.phone ∨
    s = d.company ∨ s = d.jobTitle ∨ s = d.country ∨ s = d.message := by
  simp [adminTrialSegs] at hs
  tauto

theorem esc_field_contains (m : String) (hm : ContainsSub scriptPat m.data) :
    ContainsSub escScriptPat (escapeHtml (some m)).data := by
  have hne : m ≠ "" := by
    intro h
    subst h
    rcases hm with ⟨p, q, hpq⟩
    have := congrArg List.length hpq
    simp [scriptPat] at this
    omega
  have hdata : (escapeHtml (some m)).data = escData m.data := by
    simp [escapeHtml, hne]
  rw [hdata, ← escData_script]
  exact escData_containsSub _ _ hm

/-- C2: for every submission, every user-supplied field value passes through
escapeHtml before interpolation, so, provided the configured base URL and the
fetched logo data URI themselves carry no opening angle bracket, none of the
four rendered documents ever contains a literal opening script tag; and when
the message (or first name) contains one, the documents that interpolate that
field contain its escaped form. -/
theorem c2_rendered_html_escapes_script (fd : FormData) (base : String) (logo : Option String)
    (hbase : NoLt base.data)
    (hlogo : ∀ u, logo = some u → NoLt u.data) :
    (¬ ContainsSub scriptPat (htmlWelcomeContact base logo (safeData fd)).data ∧
     ¬ ContainsSub scriptPat (htmlAdminContact (safeData fd)).data ∧
     ¬ ContainsSub scriptPat (htmlWelcomeTrial base logo (safeData fd)).data ∧
     ¬ ContainsSub scriptPat (htmlAdminTrial (safeData fd)).data) ∧
    ((∃ m, fd.message = some m ∧ ContainsSub scriptPat m.data) →
      ContainsSub escScriptPat (htmlAdminContact (safeData fd)).data ∧
      ContainsSub escScriptPat (htmlAdminTrial (safeData fd)).data) ∧
    ((∃ m, fd.firstName = some m ∧ ContainsSub scriptPat m.data) →
      ContainsSub escScriptPat (htmlWelcomeContact base logo (safeData fd)).data ∧
      ContainsSub escScriptPat (htmlAdminContact (safeData fd)).data ∧
      ContainsSub escScriptPat (htmlWelcomeTrial base logo (safeData fd)).data ∧
      ContainsSub escScriptPat (htmlAdminTrial (safeData fd)).data) := by
  refine ⟨⟨?nW, ?nA, ?nWT, ?nAT⟩, ?pm, ?pf⟩
  case nW =>
      show ¬ ContainsSub scriptPat (renderSegs (welcomeContactSegs base logo (safeData fd)))
      refine no_script_render _ (segsOk_welcomeContact base logo (safeData fd)) ?_
      intro s hs
      rcases dyn_welcomeContact _ _ _ _ hs with rfl | rfl | rfl | rfl | ⟨u, hu, rfl⟩
      · exact escapeHtml_noLt fd.firstName
      · exact escapeHtml_noLt fd.lastName
      · exact escapeHtml_noLt fd.email
      · exact hbase
      · exact hlogo _ hu
  case nA =>
      show ¬ ContainsSub scriptPat (renderSegs (adminContactSegs (safeData fd)))
      refine no_script_render _ (segsOk_adminContact (safeData fd)) ?_
      intro s hs
      rcases dyn_adminContact _ _ hs with rfl | rfl | rfl | rfl | rfl | rfl | rfl
      · exact escapeHtml_noLt fd.firstName
      · exact escapeHtml_noLt fd.lastName
      · exact escapeHtml_noLt fd.email
      · exact escapeHtml_noLt fd.phone
      · exact escapeHtml_noLt (some (jsOr fd.company ("N/A")))
      · exact escapeHtml_noLt (some (jsOr fd.jobTitle ("N/A")))
      · exact escapeHtml_noLt fd.message
  case nWT =>
      show ¬ ContainsSub scriptPat (renderSegs (welcomeTrialSegs base logo (safeData fd)))
      refine no_script_render _ (segsOk_welcomeTrial base logo (safeData fd)) ?_
      intro s hs
      rcases dyn_welcomeTrial _ _ _ _ hs with rfl | rfl | rfl | rfl | rfl | ⟨u, hu, rfl⟩
      · exact escapeHtml_noLt fd.firstName
      · exact escapeHtml_noLt fd.lastName
      · exact escapeHtml_noLt fd.email
      · exact escapeHtml_noLt (some (jsOr fd.company ("N/A")))
      · exact hbase
      · exact hlogo _ hu
  case nAT =>
      show ¬ ContainsSub scriptPat (renderSegs (adminTrialSegs (safeData fd)))
      refine no_script_render _ (segsOk_adminTrial (safeData fd)) ?_
      intro s hs
      rcases dyn_adminTrial _ _ hs with rfl | rfl | rfl | rfl | rfl | rfl | rfl | rfl
      · exact escapeHtml_noLt fd.firstName
      · exact escapeHtml_noLt fd.lastName
      · exact escapeHtml_noLt fd.email
      · exact escapeHtml_noLt fd.phone
      · exact escapeHtml_noLt (some (jsOr fd.company ("N/A")))
      · exact escapeHtml_noLt (some (jsOr fd.jobTitle ("N/A")))
      · exact escapeHtml_noLt (some (jsOr fd.country ("N/A")))
      · exact escapeHtml_noLt fd.message
  case pm =>
      rintro ⟨m, hm, hcm⟩
      have h1 : ContainsSub escScriptPat ((safeData fd).message).data := by
        have hd : (safeData fd).message = escapeHtml (some m) := by
          simp [safeData, hm]
        rw [hd]
        exact esc_field_contains m hcm
      constructor
      · show ContainsSub escScriptPat (renderSegs (adminContactSegs (safeData fd)))
        exact renderSegs_containsSub _ (Seg.dyn ((safeData fd).message)) _
          (by simp [adminContactSegs]) h1
      · show ContainsSub escScriptPat (renderSegs (adminTrialSegs (safeData fd)))
        exact renderSegs_containsSub _ (Seg.dyn ((safeData fd).message)) _
          (by simp [adminTrialSegs]) h1
  case pf =>
      rintro ⟨m, hm, hcm⟩
      have h1 : ContainsSub escScriptPat ((safeData fd).firstName).data := by
        have hd : (safeData fd).firstName = escapeHtml (some m) := by
          simp [safeData, hm]
        rw [hd]
        exact esc_field_contains m hcm
      refine ⟨?_, ?_, ?_, ?_⟩
      · show ContainsSub escScriptPat (renderSegs (welcomeContactSegs base logo (safeData fd)))
        exact renderSegs_containsSub _ (Seg.dyn ((safeData fd).firstName)) _
          (by rcases logo with _ | u <;> simp [welcomeContactSegs, logoSegs]) h1
      · show ContainsSub escScriptPat (renderSegs (adminContactSegs (safeData fd)))
        exact renderSegs_containsSub _ (Seg.dyn ((safeData fd).firstName)) _
          (by simp [adminContactSegs]) h1
      · show ContainsSub escScriptPat (renderSegs (welcomeTrialSegs base logo (safeData fd)))
        exact renderSegs_containsSub _ (Seg.dyn ((safeData fd).firstName)) _
          (by rcases logo with _ | u <;> simp [welcomeTrialSegs, logoSegs]) h1
      · show ContainsSub escScriptPat (renderSegs (adminTrialSegs (safeData fd)))
        exact renderSegs_containsSub _ (Seg.dyn ((safeData fd).firstName)) _
          (by simp [adminTrialSegs]) h1

/-! Claim theorems -/

/-- C1: escapeHtml maps each of the five characters to its HTML entity,
leaves every other character unchanged (the output is the concatenation of the
per-character images), and returns the empty string when the input is null or
empty. -/
theorem c1_escapeHtml_contract :
    escapeHtml none = "" ∧ escapeHtml (some ("")) = "" ∧
    (∀ s : String, (escapeHtml (some s)).data = escData s.data) ∧
    escapeChar '&' = "&amp;" ∧ escapeChar '<' = "&lt;" ∧ escapeChar '>' = "&gt;" ∧
    escapeChar '"' = "&quot;" ∧ escapeChar apos = "&#039;" ∧
    (∀ c : Char, c ≠ '&' → c ≠ '<' → c ≠ '>' → c ≠ '"' → c ≠ apos →
      escapeChar c = String.singleton c) := by
  refine ⟨rfl, rfl, ?_, rfl, rfl, rfl, rfl, rfl, ?_⟩
  · intro s
    by_cases h : s = ""
    · subst h
      rfl
    · simp [escapeHtml, h]
  · intro c h1 h2 h3 h4 h5
    simp [escapeChar, h1, h2, h3, h4, h5]

/-- C1 witness: the theorem applied at the character a, with the hypotheses
discharged concretely. -/
theorem c1_escapeHtml_contract_witness : escapeChar 'a' = String.singleton 'a' :=
  c1_escapeHtml_contract.2.2.2.2.2.2.2.2 'a' (by decide) (by decide) (by decide)
    (by decide) (by decide)

/-- C5: parsing the comma-separated CC environment value splits on commas,
trims entries, and keeps exactly the syntactically valid addresses in order;
the example value yields exactly the two valid addresses, which appear as the
cc list of the operator notification payload. -/
theorem c5_cc_parsing :
    parseCcEmails (some ("a@b.com, not-valid, c@d.com")) = ["a@b.com", "c@d.com"] ∧
    parseCcEmails none = [] ∧
    (∀ s : String, parseCcEmails (some s) =
      ((jsSplitChar ',' s.data).map (fun l => jsTrim (String.mk l))).filter
        (fun e => e ≠ "" && isValidEmail e)) ∧
    (∀ s : String,
      (parseCcEmails (some s)).Sublist ((jsSplitChar ',' s.data).map (fun l => jsTrim (String.mk l)))) ∧
    (∀ s : String, ∀ e ∈ parseCcEmails (some s), isValidEmail e = true) ∧
    (∃ p1 p2 : EmailPayload,
      (sendFormEmail
        { brevoApiKey := some ("k"), adminEmail := some ("admin@x.co"),
          baseUrl := some ("https://x.co"),
          ccEmails := some ("a@b.com, not-valid, c@d.com"), replyToEmail := none }
        { firstName := some ("Ann"), lastName := some ("Lee"), email := some ("u@v.co"),
          phone := some ("123"), message := some ("hi"),
          company := none, jobTitle := none, country := none }
        ("contact") (.response 200 (some ("image/png")) ("QUJD"))
        (.httpResponse 200 (some ("ok")) ("raw")) (.httpResponse 200 (some ("ok")) ("raw"))).2 =
        [OutboundCall.logoFetch ("https://x.co/web-logo.png"),
         OutboundCall.emailPost p1, OutboundCall.emailPost p2] ∧
      p2.cc = ["a@b.com", "c@d.com"]) := by
  refine ⟨by decide, rfl, fun s => rfl, ?_, ?_, ?_⟩
  · intro s
    exact List.filter_sublist _
  · intro s e he
    have := List.of_mem_filter he
    exact (Bool.and_eq_true _ _ |>.mp this).2
  · exact ⟨_, _, rfl, by decide⟩

/-- C5 witness: the membership conjunct applied at the example value and its
first surviving entry. -/
theorem c5_cc_parsing_witness : isValidEmail ("a@b.com") = true :=
  c5_cc_parsing.2.2.2.2.1 ("a@b.com, not-valid, c@d.com") ("a@b.com") (by decide)

/-- C9: when the fetched resource carries a content-type of image/png, the
stored filename and the returned relative url of the upload-by-URL handler end
in .png, whatever the extension in the source URL path was. -/
theorem c9_upload_png_extension (ts : Nat) (upath : String) :
    (∃ pre, uploadUrlFilename ts (some ("image/png")) upath = pre ++ ".png") ∧
    (∃ pre, uploadUrlStoredUrl ts (some ("image/png")) upath = pre ++ ".png") := by
  have hext : inferExtension (some ("image/png")) upath = "png" := rfl
  have hfile : uploadUrlFilename ts (some ("image/png")) upath =
      toString ts ++ "-url-image." ++ "png" := by
    simp [uploadUrlFilename, hext]
  have hsplit : (("-url-image." : String) ++ "png") = ("-url-image" : String) ++ ".png" := by
    decide
  refine ⟨⟨toString ts ++ "-url-image", ?_⟩, ⟨"/uploads/blogs/" ++ (toString ts ++ "-url-image"), ?_⟩⟩
  · rw [hfile, String.append_assoc, hsplit, ← String.append_assoc]
  · show ("/uploads/blogs/") ++ uploadUrlFilename ts (some ("image/png")) upath = _
    rw [hfile, String.append_assoc, hsplit]
    simp [String.append_assoc]

/-- C10: a failed logo fetch (throw or non-ok status) makes getLogoBase64
return null, the fallback coloured div is used for the logo slot, and the
resolved/rejected outcome of sendFormEmail is identical to that of a run whose
logo fetch succeeded. -/
theorem c10_logo_failure_is_harmless :
    (∀ m, getLogoBase64 (.thrown m) = none) ∧
    (∀ st ct b, statusOk st = false → getLogoBase64 (.response st ct b) = none) ∧
    logoHtml none =
      "<div style=\"width:60px; height:60px; border-radius:8px; background:#3c0366; display:block; margin:0 auto;\"></div>" ∧
    (∀ env fd ft lg1 lg2 r1 r2,
      (sendFormEmail env fd ft lg1 r1 r2).1 = (sendFormEmail env fd ft lg2 r1 r2).1) := by
  refine ⟨fun m => rfl, ?_, rfl, ?_⟩
  · intro st ct b h
    simp [getLogoBase64, h]
  · intro env fd ft lg1 lg2 r1 r2
    by_cases e1 : falsyStr env.brevoApiKey
    · simp [sendFormEmail, e1]
    · by_cases e2 : falsyStr env.adminEmail
      · simp [sendFormEmail, e1, e2]
      · by_cases e3 : falsyStr env.baseUrl
        · simp [sendFormEmail, e1, e2, e3]
        · by_cases e4 : isValidEmail (jsOr env.replyToEmail (env.adminEmail.getD ("")))
          · cases hv : validateFormData fd ft with
            | error e => simp [sendFormEmail, e1, e2, e3, e4, hv]
            | ok u =>
                cases u
                cases hc1 : sendEmailCall r1 with
                | error e => simp [sendFormEmail, e1, e2, e3, e4, hv, hc1]
                | ok u1 =>
                    cases u1
                    cases hc2 : sendEmailCall r2 with
                    | error e => simp [sendFormEmail, e1, e2, e3, e4, hv, hc1, hc2]
                    | ok u2 => cases u2; simp [sendFormEmail, e1, e2, e3, e4, hv, hc1, hc2]
          · simp [sendFormEmail, e1, e2, e3, e4]

/-- C10 witness: the non-ok-status conjunct applied at status 500. -/
theorem c10_logo_failure_is_harmless_witness :
    getLogoBase64 (.response 500 none ("")) = none :=
  c10_logo_failure_is_harmless.2.1 500 none ("") (by decide)

/-- C3 counterexample: for a concrete valid contact submission with a provider
answering 2xx to both email calls, sendFormEmail resolves with success, but
the invocation issued three outbound calls (the logo fetch precedes the two
provider calls), not exactly two as the claim states. -/
theorem c3_counterexample :
    (sendFormEmail
      { brevoApiKey := some ("k"), adminEmail := some ("admin@x.co"),
        baseUrl := some ("https://x.co"), ccEmails := none, replyToEmail := none }
      { firstName := some ("Ann"), lastName := some ("Lee"), email := some ("u@v.co"),
        phone := some ("123"), message := some ("hi"),
        company := none, jobTitle := none, country := none }
      ("contact") (.response 200 (some ("image/png")) ("QUJD"))
      (.httpResponse 200 (some ("ok")) ("raw")) (.httpResponse 200 (some ("ok")) ("raw"))).1 =
      Except.ok { success := true, message := "Emails sent successfully" } ∧
    ¬ ((sendFormEmail
      { brevoApiKey := some ("k"), adminEmail := some ("admin@x.co"),
        baseUrl := some ("https://x.co"), ccEmails := none, replyToEmail := none }
      { firstName := some ("Ann"), lastName := some ("Lee"), email := some ("u@v.co"),
        phone := some ("123"), message := some ("hi"),
        company := none, jobTitle := none, country := none }
      ("contact") (.response 200 (some ("image/png")) ("QUJD"))
      (.httpResponse 200 (some ("ok")) ("raw")) (.httpResponse 200 (some ("ok")) ("raw"))).2.length = 2) := by
  refine ⟨rfl, ?_⟩
  intro h
  have : (3 : Nat) = 2 := h
  omega

/-- C3 (amended): for every valid contact submission, environment with the
required values set, and provider answering 2xx to both calls, sendFormEmail
resolves with success:true and issues exactly two outbound provider email
calls, in order submitter acknowledgement then operator notification,
preceded by the one logo-fetch request. -/
theorem c3_success_two_email_calls (env : Env) (fd : FormData) (lg : FetchOutcome)
    (st1 st2 : Nat) (m1 m2 : Option String) (b1 b2 : String)
    (h1 : falsyStr env.brevoApiKey = false) (h2 : falsyStr env.adminEmail = false)
    (h3 : falsyStr env.baseUrl = false)
    (h4 : isValidEmail (jsOr env.replyToEmail (env.adminEmail.getD (""))) = true)
    (h5 : validateFormData fd ("contact") = .ok ())
    (hs1 : statusOk st1 = true) (hs2 : statusOk st2 = true) :
    ∃ p1 p2 : EmailPayload,
      sendFormEmail env fd ("contact") lg (.httpResponse st1 m1 b1) (.httpResponse st2 m2 b2) =
        (Except.ok { success := true, message := "Emails sent successfully" },
         [OutboundCall.logoFetch ((env.baseUrl.getD ("")) ++ "/web-logo.png"),
          OutboundCall.emailPost p1, OutboundCall.emailPost p2]) ∧
      p1.«to» = [fd.email.getD ("")] ∧
      p1.subject = "Thank you for contacting us" ∧
      p2.«to» = [env.adminEmail.getD ("")] ∧
      p2.subject = adminSubjectContact (safeData fd) ∧
      p2.replyTo = fd.email.getD ("") ∧
      p2.cc = parseCcEmails env.ccEmails := by
  refine
    ⟨{ «to» := [fd.email.getD ("")], cc := [],
       replyTo := jsOr env.replyToEmail (env.adminEmail.getD ("")),
       subject := "Thank you for contacting us",
       htmlContent := htmlWelcomeContact (env.baseUrl.getD ("")) (getLogoBase64 lg) (safeData fd),
       fromEmail := env.adminEmail.getD (""), fromName := companyName },
     { «to» := [env.adminEmail.getD ("")], cc := parseCcEmails env.ccEmails,
       replyTo := fd.email.getD (""),
       subject := adminSubjectContact (safeData fd),
       htmlContent := htmlAdminContact (safeData fd),
       fromEmail := env.adminEmail.getD (""), fromName := companyName },
     ?_, rfl, rfl, rfl, rfl, rfl, rfl⟩
  simp [sendFormEmail, h1, h2, h3, h4, h5, sendEmailCall, hs1, hs2]

/-- C3 witness: the amended theorem applied at a concrete environment,
submission and pair of 200 responses. -/
theorem c3_success_two_email_calls_witness :
    ∃ p1 p2 : EmailPayload,
      sendFormEmail
        { brevoApiKey := some ("k"), adminEmail := some ("admin@x.co"),
          baseUrl := some ("https://x.co"), ccEmails := none, replyToEmail := none }
        { firstName := some ("Ann"), lastName := some ("Lee"), email := some ("u@v.co"),
          phone := some ("123"), message := some ("hi"),
          company := none, jobTitle := none, country := none }
        ("contact") (.response 200 (some ("image/png")) ("QUJD"))
        (.httpResponse 200 (some ("ok")) ("raw")) (.httpResponse 200 (some ("ok")) ("raw")) =
        (Except.ok { success := true, message := "Emails sent successfully" },
         [OutboundCall.logoFetch (("https://x.co" : String) ++ "/web-logo.png"),
          OutboundCall.emailPost p1, OutboundCall.emailPost p2]) ∧
      p1.«to» = [("u@v.co" : String)] ∧
      p1.subject = "Thank you for contacting us" ∧
      p2.«to» = [("admin@x.co" : String)] ∧
      p2.subject = adminSubjectContact (safeData
        { firstName := some ("Ann"), lastName := some ("Lee"), email := some ("u@v.co"),
          phone := some ("123"), message := some ("hi"),
          company := none, jobTitle := none, country := none }) ∧
      p2.replyTo = ("u@v.co" : String) ∧
      p2.cc = parseCcEmails none :=
  c3_success_two_email_calls
    { brevoApiKey := some ("k"), adminEmail := some ("admin@x.co"),
      baseUrl := some ("https://x.co"), ccEmails := none, replyToEmail := none }
    { firstName := some ("Ann"), lastName := some ("Lee"), email := some ("u@v.co"),
      phone := some ("123"), message := some ("hi"),
      company := none, jobTitle := none, country := none }
    (.response 200 (some ("image/png")) ("QUJD")) 200 200 (some ("ok")) (some ("ok"))
    ("raw") ("raw") (by decide) (by decide) (by decide) (by decide) rfl (by decide) (by decide)

/-- C4: for every valid submission (any recognised form type), when the first
email call succeeds and the second returns a non-2xx status, sendFormEmail
rejects with a delivery error carrying the provider status code and message,
and the outbound traffic is exactly the logo fetch and the two email posts:
no further call follows, and nothing compensates the already-sent submitter
email. -/
theorem c4_operator_failure_rejects (env : Env) (fd : FormData) (ft : String)
    (lg : FetchOutcome) (st1 st2 : Nat) (m1 m2 : Option String) (b1 b2 : String)
    (h1 : falsyStr env.brevoApiKey = false) (h2 : falsyStr env.adminEmail = false)
    (h3 : falsyStr env.baseUrl = false)
    (h4 : isValidEmail (jsOr env.replyToEmail (env.adminEmail.getD (""))) = true)
    (h5 : validateFormData fd ft = .ok ())
    (hs1 : statusOk st1 = true) (hs2 : statusOk st2 = false) :
    ∃ p1 p2 : EmailPayload,
      sendFormEmail env fd ft lg (.httpResponse st1 m1 b1) (.httpResponse st2 m2 b2) =
        (Except.error ("Email delivery failed: " ++
          ("Failed to send email: " ++
            ("Brevo API returned " ++ toString st2 ++ ": " ++ brevoErrText m2 b2))),
         [OutboundCall.logoFetch ((env.baseUrl.getD ("")) ++ "/web-logo.png"),
          OutboundCall.emailPost p1, OutboundCall.emailPost p2]) := by
  refine
    ⟨{ «to» := [fd.email.getD ("")], cc := [],
       replyTo := jsOr env.replyToEmail (env.adminEmail.getD ("")),
       subject := if ft = "contact" then ("Thank you for contacting us")
         else if ft = "trial" then ("Thank you for booking a demo") else (""),
       htmlContent := if ft = "contact" then
           htmlWelcomeContact (env.baseUrl.getD ("")) (getLogoBase64 lg) (safeData fd)
         else if ft = "trial" then
           htmlWelcomeTrial (env.baseUrl.getD ("")) (getLogoBase64 lg) (safeData fd)
         else (""),
       fromEmail := env.adminEmail.getD (""), fromName := companyName },
     { «to» := [env.adminEmail.getD ("")], cc := parseCcEmails env.ccEmails,
       replyTo := fd.email.getD (""),
       subject := if ft = "contact" then adminSubjectContact (safeData fd)
         else if ft = "trial" then adminSubjectTrial (safeData fd) else (""),
       htmlContent := if ft = "contact" then htmlAdminContact (safeData fd)
         else if ft = "trial" then htmlAdminTrial (safeData fd) else (""),
       fromEmail := env.adminEmail.getD (""), fromName := companyName },
     ?_⟩
  simp [sendFormEmail, h1, h2, h3, h4, h5, sendEmailCall, hs1, hs2]

/-- C4 witness: the theorem applied at a concrete submission with a 400
operator response carrying the message bad key. -/
theorem c4_operator_failure_rejects_witness :
    ∃ p1 p2 : EmailPayload,
      sendFormEmail
        { brevoApiKey := some ("k"), adminEmail := some ("admin@x.co"),
          baseUrl := some ("https://x.co"), ccEmails := none, replyToEmail := none }
        { firstName := some ("Ann"), lastName := some ("Lee"), email := some ("u@v.co"),
          phone := some ("123"), message := some ("hi"),
          company := none, jobTitle := none, country := none }
        ("contact") (.response 200 (some ("image/png")) ("QUJD"))
        (.httpResponse 200 (some ("ok")) ("raw")) (.httpResponse 400 (some ("bad key")) ("raw")) =
        (Except.error ("Email delivery failed: " ++
          ("Failed to send email: " ++
            ("Brevo API returned " ++ toString 400 ++ ": " ++ brevoErrText (some ("bad key")) ("raw")))),
         [OutboundCall.logoFetch (("https://x.co" : String) ++ "/web-logo.png"),
          OutboundCall.emailPost p1, OutboundCall.emailPost p2]) :=
  c4_operator_failure_rejects
    { brevoApiKey := some ("k"), adminEmail := some ("admin@x.co"),
      baseUrl := some ("https://x.co"), ccEmails := none, replyToEmail := none }
    { firstName := some ("Ann"), lastName := some ("Lee"), email := some ("u@v.co"),
      phone := some ("123"), message := some ("hi"),
      company := none, jobTitle := none, country := none }
    ("contact") (.response 200 (some ("image/png")) ("QUJD")) 200 400
    (some ("ok")) (some ("bad key")) ("raw") ("raw")
    (by decide) (by decide) (by decide) (by decide) rfl (by decide) (by decide)

/-- C7: with the environment set, a submission in which any required field is
missing or blank makes the validator throw its descriptive message, and the
invocation ends with that error before any outbound call is issued. -/
theorem c7_missing_required_field_rejects_before_network (env : Env) (fd : FormData)
    (ft : String) (lg : FetchOutcome) (r1 r2 : ProviderResponse)
    (h1 : falsyStr env.brevoApiKey = false) (h2 : falsyStr env.adminEmail = false)
    (h3 : falsyStr env.baseUrl = false)
    (h4 : isValidEmail (jsOr env.replyToEmail (env.adminEmail.getD (""))) = true)
    (h : isBlankOpt fd.firstName = true ∨ isBlankOpt fd.lastName = true ∨
         isBlankOpt fd.email = true ∨ isBlankOpt fd.phone = true ∨
         isBlankOpt fd.message = true) :
    ∃ f, f ∈ ["firstName", "lastName", "email", "phone", "message"] ∧
      sendFormEmail env fd ft lg r1 r2 =
        (Except.error ("Missing required field: " ++ f), []) := by
  by_cases b1 : isBlankOpt fd.firstName
  · exact ⟨"firstName", by simp, by simp [sendFormEmail, h1, h2, h3, h4, validateFormData, b1]⟩
  · by_cases b2 : isBlankOpt fd.lastName
    · exact ⟨"lastName", by simp, by simp [sendFormEmail, h1, h2, h3, h4, validateFormData, b1, b2]⟩
    · by_cases b3 : isBlankOpt fd.email
      · exact ⟨"email", by simp, by simp [sendFormEmail, h1, h2, h3, h4, validateFormData, b1, b2, b3]⟩
      · by_cases b4 : isBlankOpt fd.phone
        · exact ⟨"phone", by simp,
            by simp [sendFormEmail, h1, h2, h3, h4, validateFormData, b1, b2, b3, b4]⟩
        · have b5 : isBlankOpt fd.message = true := by
            rcases h with h | h | h | h | h
            · exact absurd h b1
            · exact absurd h b2
            · exact absurd h b3
            · exact absurd h b4
            · exact h
          exact ⟨"message", by simp,
            by simp [sendFormEmail, h1, h2, h3, h4, validateFormData, b1, b2, b3, b4, b5]⟩

/-- C7 witness: the theorem applied at a submission with a whitespace-only
message. -/
theorem c7_missing_required_field_witness :
    ∃ f, f ∈ ["firstName", "lastName", "email", "phone", "message"] ∧
      sendFormEmail
        { brevoApiKey := some ("k"), adminEmail := some ("admin@x.co"),
          baseUrl := some ("https://x.co"), ccEmails := none, replyToEmail := none }
        { firstName := some ("Ann"), lastName := some ("Lee"), email := some ("u@v.co"),
          phone := some ("123"), message := some ("   "),
          company := none, jobTitle := none, country := none }
        ("contact") (.response 200 (some ("image/png")) ("QUJD"))
        (.httpResponse 200 (some ("ok")) ("raw")) (.httpResponse 200 (some ("ok")) ("raw")) =
        (Except.error ("Missing required field: " ++ f), []) :=
  c7_missing_required_field_rejects_before_network
    { brevoApiKey := some ("k"), adminEmail := some ("admin@x.co"),
      baseUrl := some ("https://x.co"), ccEmails := none, replyToEmail := none }
    { firstName := some ("Ann"), lastName := some ("Lee"), email := some ("u@v.co"),
      phone := some ("123"), message := some ("   "),
      company := none, jobTitle := none, country := none }
    ("contact") (.response 200 (some ("image/png")) ("QUJD"))
    (.httpResponse 200 (some ("ok")) ("raw")) (.httpResponse 200 (some ("ok")) ("raw"))
    (by decide) (by decide) (by decide) (by decide) (by decide)

/-- C8: a form type other than contact and trial always makes the run end in
an error with no outbound call, whatever the environment and the other
fields. -/
theorem c8_unknown_form_type_aborts (env : Env) (fd : FormData) (ft : String)
    (lg : FetchOutcome) (r1 r2 : ProviderResponse)
    (h1 : ft ≠ "contact") (h2 : ft ≠ "trial") :
    ∃ e, sendFormEmail env fd ft lg r1 r2 = (Except.error e, []) := by
  by_cases e1 : falsyStr env.brevoApiKey
  · exact ⟨"BREVO_API_KEY environment variable is not set", by simp [sendFormEmail, e1]⟩
  · by_cases e2 : falsyStr env.adminEmail
    · exact ⟨"ADMIN_EMAIL environment variable is not set", by simp [sendFormEmail, e1, e2]⟩
    · by_cases e3 : falsyStr env.baseUrl
      · exact ⟨"NEXT_PUBLIC_BASE_URL environment variable is not set", by simp [sendFormEmail, e1, e2, e3]⟩
      · by_cases e4 : isValidEmail (jsOr env.replyToEmail (env.adminEmail.getD ("")))
        · have hval : ∃ e, validateFormData fd ft = .error e := by
            by_cases b1 : isBlankOpt fd.firstName
            · exact ⟨"Missing required field: firstName", by simp [validateFormData, b1]⟩
            · by_cases b2 : isBlankOpt fd.lastName
              · exact ⟨"Missing required field: lastName", by simp [validateFormData, b1, b2]⟩
              · by_cases b3 : isBlankOpt fd.email
                · exact ⟨"Missing required field: email", by simp [validateFormData, b1, b2, b3]⟩
                · by_cases b4 : isBlankOpt fd.phone
                  · exact ⟨"Missing required field: phone", by simp [validateFormData, b1, b2, b3, b4]⟩
                  · by_cases b5 : isBlankOpt fd.message
                    · exact ⟨"Missing required field: message", by simp [validateFormData, b1, b2, b3, b4, b5]⟩
                    · by_cases b6 : isValidEmailOpt fd.email
                      · exact ⟨"Invalid form type. Must be \"contact\" or \"trial\"", by
                          simp [validateFormData, b1, b2, b3, b4, b5, b6, h1, h2]⟩
                      · exact ⟨"Invalid email address", by simp [validateFormData, b1, b2, b3, b4, b5, b6]⟩
          rcases hval with ⟨e, he⟩
          exact ⟨e, by simp [sendFormEmail, e1, e2, e3, e4, he]⟩
        · exact ⟨"Invalid REPLY_TO_EMAIL address", by simp [sendFormEmail, e1, e2, e3, e4]⟩

/-- C8 witness: the theorem applied at an otherwise fully valid submission
with form type demo. -/
theorem c8_unknown_form_type_witness :
    ∃ e, sendFormEmail
      { brevoApiKey := some ("k"), adminEmail := some ("admin@x.co"),
        baseUrl := some ("https://x.co"), ccEmails := none, replyToEmail := none }
      { firstName := some ("Ann"), lastName := some ("Lee"), email := some ("u@v.co"),
        phone := some ("123"), message := some ("hi"),
        company := none, jobTitle := none, country := none }
      ("demo") (.response 200 (some ("image/png")) ("QUJD"))
      (.httpResponse 200 (some ("ok")) ("raw")) (.httpResponse 200 (some ("ok")) ("raw")) =
      (Except.error e, []) :=
  c8_unknown_form_type_aborts
    { brevoApiKey := some ("k"), adminEmail := some ("admin@x.co"),
      baseUrl := some ("https://x.co"), ccEmails := none, replyToEmail := none }
    { firstName := some ("Ann"), lastName := some ("Lee"), email := some ("u@v.co"),
      phone := some ("123"), message := some ("hi"),
      company := none, jobTitle := none, country := none }
    ("demo") (.response 200 (some ("image/png")) ("QUJD"))
    (.httpResponse 200 (some ("ok")) ("raw")) (.httpResponse 200 (some ("ok")) ("raw"))
    (by decide) (by decide)

/-- C2 witness: the theorem applied at a submission whose message is a script
tag, with a concrete base URL and no logo. -/
theorem c2_rendered_html_escapes_script_witness :
    ¬ ContainsSub scriptPat (htmlWelcomeContact ("https://x.co") none (safeData
      { firstName := some ("Ann"), lastName := some ("Lee"), email := some ("u@v.co"),
        phone := some ("123"), message := some ("<script>alert(1)</script>"),
        company := none, jobTitle := none, country := none })).data :=
  (c2_rendered_html_escapes_script
    { firstName := some ("Ann"), lastName := some ("Lee"), email := some ("u@v.co"),
      phone := some ("123"), message := some ("<script>alert(1)</script>"),
      company := none, jobTitle := none, country := none }
    ("https://x.co") none
    (by intro c hc; exact (by decide : ∀ x ∈ ("https://x.co").data, x ≠ '<') c hc)
    (fun u hu => Option.noConfusion hu)).1.1

/-! Helper lemmas: the email regex and its language -/

theorem takeWhile_middle (a : List Char) (r : List Char)
    (ha : ∀ c ∈ a, notAt c = true) :
    (a ++ '@' :: r).takeWhile notAt = a := by
  induction a with
  | nil => simp [List.takeWhile_cons, notAt]
  | cons c t ih =>
      have hc : notAt c = true := ha c (by simp)
      rw [List.cons_append, List.takeWhile_cons, hc]
      simp only [if_true]
      rw [ih (fun u hu => ha u (by simp [hu]))]

theorem dropWhile_middle (a : List Char) (r : List Char)
    (ha : ∀ c ∈ a, notAt c = true) :
    (a ++ '@' :: r).dropWhile notAt = '@' :: r := by
  induction a with
  | nil => simp [List.dropWhile_cons, notAt]
  | cons c t ih =>
      have hc : notAt c = true := ha c (by simp)
      rw [List.cons_append, List.dropWhile_cons, hc]
      simp only [if_true]
      exact ih (fun u hu => ha u (by simp [hu]))

theorem dropWhile_head_not (p : Char → Bool) (l : List Char) (x : Char) (r : List Char)
    (h : l.dropWhile p = x :: r) : p x = false := by
  induction l with
  | nil => simp [List.dropWhile] at h
  | cons c t ih =>
      rw [List.dropWhile_cons] at h
      by_cases hc : p c
      · rw [if_pos hc] at h
        exact ih h
      · rw [if_neg hc] at h
        cases h
        simpa using hc

theorem mem_middle_split (d : List Char) (x : Char) (hx : x ∈ (d.drop 1).dropLast) :
    ∃ b c, d = b ++ x :: c ∧ b ≠ [] ∧ c ≠ [] := by
  rcases d with _ | ⟨h, t⟩
  · simp at hx
  · simp only [List.drop_succ_cons, List.drop_zero] at hx
    have htne : t ≠ [] := by
      rintro rfl
      simp at hx
    rcases List.append_of_mem hx with ⟨u, v, huv⟩
    obtain ⟨y, hy⟩ : ∃ y, t = (u ++ x :: v) ++ [y] :=
      ⟨t.getLast htne, by rw [← huv]; exact (List.dropLast_concat_getLast htne).symm⟩
    refine ⟨h :: u, v ++ [y], ?_, by simp, by simp⟩
    rw [hy]
    simp

theorem isValidEmailChars_iff_pattern (l : List Char) :
    isValidEmailChars l = true ↔ EmailPattern l := by
  constructor
  · intro hv
    unfold isValidEmailChars at hv
    split at hv
    · exact absurd hv (by simp)
    · rename_i x dom heq
      rw [Bool.and_eq_true, Bool.and_eq_true, Bool.and_eq_true, Bool.and_eq_true] at hv
      obtain ⟨⟨⟨⟨h1, h2⟩, h3⟩, h4⟩, h5⟩ := hv
      have hx : x = '@' := by
        have := dropWhile_head_not notAt l x dom heq
        simpa [notAt] using this
      subst hx
      have hdot : '.' ∈ (dom.drop 1).dropLast := by
        have : List.elem '.' ((dom.drop 1).dropLast) = true := h5
        exact List.elem_iff.mp this
      rcases mem_middle_split dom '.' hdot with ⟨b, c, hd, hbne, hcne⟩
      have hsplit : l = (l.takeWhile notAt) ++ '@' :: dom := by
        rw [← heq]
        exact (List.takeWhile_append_dropWhile notAt l).symm
      have hdomAll : ∀ ch ∈ dom, ch ≠ '@' ∧ jsSpace ch = false := by
        intro ch hch
        have := List.all_eq_true.mp h4 ch hch
        rw [Bool.and_eq_true] at this
        exact ⟨by simpa [notAt] using this.1, by simpa using this.2⟩
      refine ⟨l.takeWhile notAt, b, c, ?_, ?_, hbne, hcne, ?_, ?_, ?_⟩
      · rw [← hd]
        exact hsplit
      · intro h0
        rw [h0] at h1
        simp at h1
      · intro ch hch
        refine ⟨?_, ?_⟩
        · have := List.mem_takeWhile_imp hch
          simpa [notAt] using this
        · have := List.all_eq_true.mp h2 ch hch
          simpa using this
      · intro ch hch
        exact hdomAll ch (by rw [hd]; simp [hch])
      · intro ch hch
        exact hdomAll ch (by rw [hd]; simp [hch])
  · rintro ⟨a, b, c, hl, ha, hb, hc, hpa, hpb, hpc⟩
    have hA : ∀ ch ∈ a, notAt ch = true := by
      intro ch hch
      simpa [notAt] using (hpa ch hch).1
    subst hl
    have hdw := dropWhile_middle a (b ++ '.' :: c) hA
    have htw := takeWhile_middle a (b ++ '.' :: c) hA
    unfold isValidEmailChars
    simp only [hdw, htw]
    rw [Bool.and_eq_true, Bool.and_eq_true, Bool.and_eq_true, Bool.and_eq_true]
    refine ⟨⟨⟨⟨?_, ?_⟩, ?_⟩, ?_⟩, ?_⟩
    · simpa using ha
    · rw [List.all_eq_true]
      intro ch hch
      simpa using (hpa ch hch).2
    · simp
    · rw [List.all_eq_true]
      intro ch hch
      rw [Bool.and_eq_true]
      rcases List.mem_append.mp hch with hch2 | hch2
      · exact ⟨by simpa [notAt] using (hpb ch hch2).1, by simpa using (hpb ch hch2).2⟩
      · rcases List.mem_cons.mp hch2 with rfl | hch3
        · exact ⟨by decide, by decide⟩
        · exact ⟨by simpa [notAt] using (hpc ch hch3).1, by simpa using (hpc ch hch3).2⟩
    · rcases b with _ | ⟨b0, tb⟩
      · exact absurd rfl hb
      · rcases c with _ | ⟨c0, tc⟩
        · exact absurd rfl hc
        · simp only [List.cons_append, List.drop_succ_cons, List.drop_zero]
          rw [List.dropLast_append_cons]
          have : ('.' :: c0 :: tc).dropLast = '.' :: (c0 :: tc).dropLast := rfl
          rw [this]
          have hmem : '.' ∈ tb ++ '.' :: (c0 :: tc).dropLast := by simp
          exact List.elem_eq_true_of_mem hmem

/-- C6: the email check accepts exactly the language of the
local-part@domain.tld regex; not-an-email is rejected, a@b.co is accepted,
and any submission whose email does not match the pattern is rejected by the
validator. -/
theorem c6_email_validation :
    (∀ s : String, isValidEmail s = true ↔ EmailPattern s.data) ∧
    isValidEmail ("not-an-email") = false ∧
    isValidEmail ("a@b.co") = true ∧
    (∀ (fd : FormData) (ft : String) (s : String), fd.email = some s →
      ¬ EmailPattern s.data → ∃ e, validateFormData fd ft = Except.error e) := by
  refine ⟨fun s => isValidEmailChars_iff_pattern s.data, by decide, by decide, ?_⟩
  intro fd ft s hsome hnp
  have hinv : isValidEmail s = false := by
    rcases h : isValidEmail s with _ | _
    · rfl
    · exact absurd ((isValidEmailChars_iff_pattern s.data).mp h) hnp
  by_cases b1 : isBlankOpt fd.firstName
  · exact ⟨"Missing required field: firstName", by simp [validateFormData, b1]⟩
  · by_cases b2 : isBlankOpt fd.lastName
    · exact ⟨"Missing required field: lastName", by simp [validateFormData, b1, b2]⟩
    · by_cases b3 : isBlankOpt fd.email
      · exact ⟨"Missing required field: email", by simp [validateFormData, b1, b2, b3]⟩
      · by_cases b4 : isBlankOpt fd.phone
        · exact ⟨"Missing required field: phone", by simp [validateFormData, b1, b2, b3, b4]⟩
        · by_cases b5 : isBlankOpt fd.message
          · exact ⟨"Missing required field: message", by simp [validateFormData, b1, b2, b3, b4, b5]⟩
          · have b6 : isValidEmailOpt fd.email = false := by
              rw [hsome]
              exact hinv
            exact ⟨"Invalid email address",
              by simp [validateFormData, b1, b2, b3, b4, b5, b6]⟩

/-- C6 witness: the rejection conjunct applied at a submission whose email is
not-an-email, whose pattern failure is discharged concretely. -/
theorem c6_email_validation_witness :
    ∃ e, validateFormData
      { firstName := some ("Ann"), lastName := some ("Lee"),
        email := some ("not-an-email"), phone := some ("123"), message := some ("hi"),
        company := none, jobTitle := none, country := none } ("contact") =
      Except.error e :=
  c6_email_validation.2.2.2
    { firstName := some ("Ann"), lastName := some ("Lee"),
      email := some ("not-an-email"), phone := some ("123"), message := some ("hi"),
      company := none, jobTitle := none, country := none } ("contact") ("not-an-email") rfl
    (fun hp => by
      have := (isValidEmailChars_iff_pattern ("not-an-email").data).mpr hp
      exact absurd this (by decide))
